import Mathlib

/-!
Verification of the task launch/monitor protocol of
`metaflow/plugins/aws/eks/kubernetes.py` (class `Kubernetes`).

Conventions of the embedding:
* Time is modelled in milliseconds as `Nat` (the source sleeps with
  `select.poll().poll(ms)`; all second-valued constants of the source are
  scaled by 1000: the 30 second launch heartbeat is `30000`, the 5 second
  sleep cap of the running loop is `5000`, the initial log update delay of
  1 second is `1000`, and the 200 ms launch poll is `200`).
* External collaborators that live in this repository but outside the file
  under verification (`metaflow.mflog`, the datastore) are modelled from the
  spec; each such definition carries a doc comment saying so.
* Python exceptions are modelled with `Option`/`Except`; loops are modelled
  with explicit fuel.
-/

namespace Metaflow

/-- One remote log line: a payload plus a marker recording whether the line
has been persisted as final (authoritative) or is still provisional. -/
structure LogLine where
  persisted : Bool
  payload : String
deriving DecidableEq, Repr

/-- Modelled from the spec: `set_should_persist` (from `metaflow/mflog/mflog.py`,
which is not under `src/`) marks a line as authoritative so that a second pass
does not re-decorate it. -/
def set_should_persist (l : LogLine) : LogLine := { l with persisted := true }

/-- Modelled from the spec: `refine` (from `metaflow/mflog/mflog.py`, which is
not under `src/`) decorates a provisional line read mid-flight with a source
prefix for human display; a line already marked persisted is left unchanged. -/
def refine (pfx : String) (l : LogLine) : LogLine :=
  if l.persisted then l else { l with payload := pfx ++ l.payload }

/-- The per-line transformation of `Kubernetes.wait._print_available`
(kubernetes.py lines 285-288): `set_should_persist` when the caller asked for
persistence, otherwise `refine` with the job-id prefix. -/
def echoTransform (pfx : String) (shouldPersist : Bool) (l : LogLine) : LogLine :=
  if shouldPersist then set_should_persist l else refine pfx l

/-! ## Label sanitization (`create_job`, kubernetes.py lines 238-242) -/

/-- The character class `[^A-Za-z0-9.-_]` used by `re.sub` in `create_job`
(kubernetes.py line 241), complemented.  Inside a regex character class the
fragment `.-_` is a RANGE from `.` (0x2E) to `_` (0x5F), so the characters
the substitution keeps are `A`-`Z`, `a`-`z`, `0`-`9`, and every character
with code point in [0x2E, 0x5F]. -/
def keptByRegex (c : Char) : Bool :=
  ('A' ≤ c && c ≤ 'Z') || ('a' ≤ c && c ≤ 'z') || ('0' ≤ c && c ≤ '9')
    || ('.' ≤ c && c ≤ '_')

/-- One character of `re.sub("[^A-Za-z0-9.-_]", ".", s)`: a character matched
by the (negated) class is replaced by `.`, every other character is kept. -/
def sanitizeChar (c : Char) : Char := if keptByRegex c then c else '.'

/-- `re.sub("[^A-Za-z0-9.-_]", ".", s)` from `create_job` (kubernetes.py line
241); the pattern is a single-character class, so it acts characterwise. -/
def sanitizeValue (s : String) : String := String.mk (s.toList.map sanitizeChar)

/-- The character set the specification claims for sanitized label values:
`[A-Za-z0-9._-]` (alphanumeric, `.`, `_`, `-`).  Written from the words of the spec, to be compared with `keptByRegex`, which is written from the code. -/
def specCharset (c : Char) : Bool :=
  ('A' ≤ c && c ≤ 'Z') || ('a' ≤ c && c ≤ 'z') || ('0' ≤ c && c ≤ '9')
    || c = '.' || c = '_' || c = '-'

/-- Processing of one sticky system tag by `create_job` (kubernetes.py lines
238-242): the label key is `"metaflow/" + sys_tag[: sys_tag.index(":")]` and
the label value is the sanitized `sys_tag[sys_tag.index(":") + 1 :]`.
Python `str.index` raises `ValueError` when no `:` is present; that
uncaught exception is modelled as `none`. -/
def sysTagLabel (tag : String) : Option (String × String) :=
  match tag.toList.findIdx? (fun c => c = ':') with
  | none => none
  | some i =>
      some ("metaflow/" ++ String.mk (tag.toList.take i),
            sanitizeValue (String.mk (tag.toList.drop (i + 1))))

/-! ## Job handle and the `Kubernetes` instance state -/

/-- A logical output stream of the remote task. -/
inductive MStream where
  | stdout
  | stderr
deriving DecidableEq, Repr

/-- The external job handle, as observed by the monitor: time-indexed
observations of `status` / `is_running` / `is_done` plus the terminal fields
read during classification (`has_failed`, `reason`, `status_code`, `id`). -/
structure JobObs where
  status : Nat → String
  isRunningAt : Nat → Bool
  isDoneAt : Nat → Bool
  hasFailed : Bool
  reason : Option String
  statusCode : Int
  id : String

/-- The state of a `Kubernetes` instance (kubernetes.py lines 49-72): the five
identity fields set by `__init__` plus the job handle set by `launch_job`.
`__init__` performs no other writes; `_command`, `create_job` and `wait`
perform no attribute writes at all (checked against the source), so they are
embedded as pure functions of this state. -/
structure Kubernetes where
  flow_name : String
  run_id : String
  step_name : String
  task_id : String
  attempt : String
  job : Option JobObs

/-- `Kubernetes.__init__` (kubernetes.py lines 49-68): stores the five
identity fields; `attempt` is stored as `str(attempt)`. -/
def Kubernetes.make (flow_name run_id step_name task_id : String)
    (attempt : Nat) : Kubernetes :=
  { flow_name := flow_name, run_id := run_id, step_name := step_name,
    task_id := task_id, attempt := toString attempt, job := none }

/-- The five identity fields of an instance, as a tuple. -/
def Kubernetes.identity (k : Kubernetes) :
    String × String × String × String × String :=
  (k.flow_name, k.run_id, k.step_name, k.task_id, k.attempt)

/-- `Kubernetes.launch_job` (kubernetes.py lines 122-123): submits the created
job and stores the resulting handle in `self._job`.  The handle returned by
the external client is a parameter of the model. -/
def Kubernetes.launchJob (k : Kubernetes) (handle : JobObs) : Kubernetes :=
  { k with job := some handle }

/-- The job name computed by `create_job` (kubernetes.py lines 155-163):
lowercase hyphen-join of the identity fields. -/
def jobName (k : Kubernetes) : String :=
  (String.intercalate "-"
    [k.flow_name, k.run_id, k.step_name, k.task_id, k.attempt]).toLower

/-- The labels attached by `create_job` before the sticky system tags
(kubernetes.py lines 206-231), in attachment order. -/
def baseLabels (k : Kubernetes) (user : String) : List (String × String) :=
  [("app", "metaflow"),
   ("metaflow/flow_name", k.flow_name),
   ("metaflow/run_id", k.run_id),
   ("metaflow/step_name", k.step_name),
   ("metaflow/task_id", k.task_id),
   ("metaflow/attempt", k.attempt),
   ("app.kubernetes.io/name", "metaflow-task"),
   ("app.kubernetes.io/part-of", "metaflow"),
   ("app.kubernetes.io/created-by", user)]

/-- The projection of the submitted job description relevant to the claims:
name, scheduler-level retries (fixed at 0, kubernetes.py line 180), and the
ordered label list. -/
structure JobDesc where
  name : String
  retries : Nat
  labels : List (String × String)
deriving DecidableEq, Repr

/-- The `for sys_tag in self._metadata.sticky_sys_tags` loop of `create_job`
(kubernetes.py lines 238-242): tags are processed sequentially and the first
tag on which `str.index` raises aborts the whole call. -/
def sysTagLabels : List String → Option (List (String × String))
  | [] => some []
  | tag :: rest =>
      match sysTagLabel tag with
      | none => none
      | some l =>
          match sysTagLabels rest with
          | none => none
          | some ls => some (l :: ls)

/-- `Kubernetes.create_job` (kubernetes.py lines 125-245), projected to the
claim-relevant output.  The sticky system tags are processed in order by
`sysTagLabel`; a tag without `:` makes `str.index` raise before the job is
submitted, modelled as `none`. -/
def createJob (k : Kubernetes) (user : String) (stickySysTags : List String) :
    Option JobDesc :=
  match sysTagLabels stickySysTags with
  | none => none
  | some tagLabels =>
      some { name := jobName k, retries := 0,
             labels := baseLabels k user ++ tagLabels }

/-- Modelled from the spec: `ds.get_log_location(TASK_LOG_SOURCE, stream)`
(the datastore is not under `src/`) derives a deterministic durable location
from the task identity and the stream. -/
def logLocation (k : Kubernetes) (stream : MStream) :
    (String × String × String × String × String) × MStream :=
  (k.identity, stream)

/-! ## Command assembler (`_command`, kubernetes.py lines 74-120) -/

/-- The external collaborators consumed by `_command`:
`export_mflog_env_vars` and `BASH_SAVE_LOGS` come from `metaflow/mflog`
(repository code not under `src/`, modelled from the spec as opaque shell
fragments), `bash_capture_logs` likewise as an opaque wrapper, and the two
environment providers are declared external by the spec. -/
structure CommandEnv where
  mflog_expr : String
  package_commands : List String
  bootstrap_commands : List String
  capture : String → String
  bash_save_logs : String

/-- `" && ".join(cmds)`. -/
def ampJoin (l : List String) : String := String.intercalate " && " l

/-- `step_expr` of `_command` (kubernetes.py lines 91-96):
`bash_capture_logs(" && ".join(bootstrap_commands(step_name) + step_cmds))`. -/
def stepExpr (env : CommandEnv) (step_cmds : List String) : String :=
  env.capture (ampJoin (env.bootstrap_commands ++ step_cmds))

/-- `cmd_str` of `_command` (kubernetes.py lines 106-119):
`"true && mkdir -p /logs && %s && %s && %s; " % (mflog_expr, init_expr,
step_expr)` followed by `"c=$?; %s; exit $c" % BASH_SAVE_LOGS`. -/
def commandStr (env : CommandEnv) (step_cmds : List String) : String :=
  "true && mkdir -p /logs && " ++ env.mflog_expr ++ " && "
    ++ ampJoin env.package_commands ++ " && " ++ stepExpr env step_cmds
    ++ "; " ++ "c=$?; " ++ env.bash_save_logs ++ "; exit $c"

/-- `shlex.split` applied to the formatted `bash -c` string (kubernetes.py line 120): the
generated command contains no quote characters of its own, so the split
yields the three-element argv. -/
def command (env : CommandEnv) (step_cmds : List String) : List String :=
  ["bash", "-c", commandStr env step_cmds]

/-- `seqIn ps s` holds when the strings `ps` occur in `s` as disjoint
contiguous substrings, in order. -/
def seqIn : List String → String → Prop
  | [], _ => True
  | p :: ps, s => ∃ a b, s = a ++ (p ++ b) ∧ seqIn ps b

/-! ## Lifecycle monitor (`wait`, kubernetes.py lines 247-362) -/

/-- An observable action of the monitor, in emission order. -/
inductive Ev where
  /-- One `_print_available` call starts iterating a tail (one pull). -/
  | pull (s : MStream)
  /-- One echoed log line (after `echoTransform` and `strip`). -/
  | line (s : MStream) (text : String)
  /-- The `"[ temporary error in fetching logs: ... ]"` warning, echoed to
  stderr tagged with the job id. -/
  | logWarning (jobId : String) (msg : String)
  /-- A `"Task is starting (status ...)"` notice, echoed to stderr. -/
  | notice (status : String)
deriving DecidableEq, Repr

/-- The outcome of iterating one `S3Tail` pull: the lines yielded before the
iteration either finished (`err = none`) or raised (`err = some msg`). -/
structure Pull where
  lines : List LogLine
  err : Option String
deriving DecidableEq, Repr

/-- `_print_available` (kubernetes.py lines 280-295): iterate the tail,
transforming each yielded line (`set_should_persist` when `should_persist`,
otherwise `refine` with the `"[job-id] "` prefix) and echoing it stripped;
an exception from the iteration is caught and echoed exactly once as a
warning tagged with the job id. -/
def printAvailable (jobId : String) (shouldPersist : Bool) (st : MStream)
    (p : Pull) : List Ev :=
  Ev.pull st ::
    (p.lines.map (fun l =>
        Ev.line st ((echoTransform ("[" ++ jobId ++ "] ") shouldPersist l).payload.trim))
      ++ match p.err with
         | none => []
         | some m => [Ev.logWarning jobId m])

/-- The warning events of a trace. -/
def warnings (evs : List Ev) : List Ev :=
  evs.filter (fun e => match e with | Ev.logWarning _ _ => true | _ => false)

/-- The pull events of a trace for one stream. -/
def pullCount (st : MStream) (evs : List Ev) : Nat :=
  (evs.filter (fun e => match e with
      | Ev.pull s => s = st
      | _ => false)).length

/-! ### Launch phase (`wait_for_launch`, kubernetes.py lines 259-278) -/

/-- Loop state of `wait_for_launch`: current time, last echoed `status`, the
time `t` of the last echo, and the notices echoed so far (time, status). -/
structure LaunchState where
  t : Nat
  status : String
  lastT : Nat
  evs : List (Nat × String)
deriving DecidableEq, Repr

/-- One pass over the body of the `wait_for_launch` loop before its exit
check (kubernetes.py lines 268-275): when the observed status differs from
the last echoed one, or more than 30 seconds (30000 ms) elapsed since the
last echo, echo a fresh "Task is starting" notice and reset the timer. -/
def launchIter (job : JobObs) (s : LaunchState) : LaunchState :=
  if s.status ≠ job.status s.t ∨ s.t - s.lastT > 30000 then
    { t := s.t, status := job.status s.t, lastT := s.t,
      evs := s.evs ++ [(s.t, job.status s.t)] }
  else s

/-- The exit condition of the launch loop (kubernetes.py line 276):
`job.is_running or job.is_done`. -/
def launchCond (job : JobObs) (t : Nat) : Bool :=
  job.isRunningAt t || job.isDoneAt t

/-- The `while True` loop of `wait_for_launch` (kubernetes.py lines 267-278),
with explicit fuel; each non-exiting iteration ends with
`select.poll().poll(200)`, advancing time by 200 ms. -/
def launchLoop (job : JobObs) : Nat → LaunchState → Option LaunchState
  | 0, _ => none
  | fuel + 1, s =>
      if launchCond job (launchIter job s).t then some (launchIter job s)
      else launchLoop job fuel
        { launchIter job s with t := (launchIter job s).t + 200 }

/-- The prologue of `wait_for_launch` (kubernetes.py lines 260-266): read the
status once, echo the first notice unconditionally, start the timer. -/
def launchInit (job : JobObs) (t0 : Nat) : LaunchState :=
  { t := t0, status := job.status t0, lastT := t0,
    evs := [(t0, job.status t0)] }

/-- `wait_for_launch(job)` started at time `t0`. -/
def waitForLaunch (job : JobObs) (fuel t0 : Nat) : Option LaunchState :=
  launchLoop job fuel (launchInit job t0)

/-! ### Running phase (the `while is_running` loop, kubernetes.py lines
304-322) -/

/-- Loop state of the running-wait loop: current time, the `is_running` loop
variable, `next_log_update`, `log_update_delay` (ms) and the emitted events. -/
structure RunState where
  t : Nat
  isRunning : Bool
  nextLogUpdate : Nat
  logUpdateDelay : Nat
  evs : List Ev
deriving DecidableEq, Repr

/-- The inputs of the running loop: `upd` models `update_delay` from
`metaflow/mflog` (repository code not under `src/`; the spec describes it
only as an adaptive, monotonically non-decreasing backoff, so it is kept as
an arbitrary parameter), `jq t` is the outcome of evaluating
`self._job.is_running` at time `t` (its exceptions are NOT caught by the
source, hence `Except`), `pulls t st` is the tail content yielded by a pull
of stream `st` performed at time `t`, and `jobId` is `self._job.id`. -/
structure RunEnv where
  upd : Nat → Nat
  jq : Nat → Except String Bool
  pulls : Nat → MStream → Pull
  jobId : String

/-- One iteration of the `while is_running` body (kubernetes.py lines
310-322): when the current time is past `next_log_update`, pull and echo both
streams, recompute the delay from the elapsed time, schedule the next update,
and re-query `is_running` (uncaught on failure); in every iteration sleep
`min(log_update_delay, 5.0)` seconds (in ms: `min logUpdateDelay 5000`),
where the delay read by the sleep is the one current AFTER the branch. -/
def runIter (E : RunEnv) (startT : Nat) (s : RunState) :
    Except String RunState :=
  if s.t > s.nextLogUpdate then
    let evs := printAvailable E.jobId false MStream.stdout (E.pulls s.t MStream.stdout)
      ++ printAvailable E.jobId false MStream.stderr (E.pulls s.t MStream.stderr)
    let delay := E.upd (s.t - startT)
    match E.jq s.t with
    | Except.error e => Except.error e
    | Except.ok b =>
        Except.ok { t := s.t + min delay 5000, isRunning := b,
                    nextLogUpdate := s.t + delay, logUpdateDelay := delay,
                    evs := s.evs ++ evs }
  else
    Except.ok { s with t := s.t + min s.logUpdateDelay 5000 }

/-- Result of the running loop: normal exit (`finished`), an uncaught
exception from the `is_running` status query (`statusErr`), or fuel
exhaustion (`fuelOut`, never reached with enough fuel). -/
inductive LoopRes where
  | fuelOut (s : RunState)
  | statusErr (e : String) (s : RunState)
  | finished (s : RunState)
deriving DecidableEq, Repr

/-- The `while is_running` loop (kubernetes.py lines 309-322) with explicit
fuel. -/
def runLoop (E : RunEnv) (startT : Nat) : Nat → RunState → LoopRes
  | 0, s => LoopRes.fuelOut s
  | fuel + 1, s =>
      if s.isRunning then
        match runIter E startT s with
        | Except.error e => LoopRes.statusErr e s
        | Except.ok s' => runLoop E startT fuel s'
      else LoopRes.finished s

/-- The loop prologue (kubernetes.py lines 304-307): `is_running = True`,
`next_log_update = start_time`, `log_update_delay = 1` (second). -/
def runInit (t0 : Nat) : RunState :=
  { t := t0, isRunning := true, nextLogUpdate := t0, logUpdateDelay := 1000,
    evs := [] }

/-- The exit time of a normally finished loop. -/
def exitTime : LoopRes → Option Nat
  | LoopRes.finished s => some s.t
  | _ => none

/-! ### Terminal classification (kubernetes.py lines 340-362) -/

/-- The terminal outcome of one monitoring session. -/
inductive MonitorResult where
  /-- `KubernetesException` raised with the given message. -/
  | failed (msg : String)
  /-- `KubernetesKilledException` raised. -/
  | killed
  /-- Normal return, echoing `"Task finished with exit code ..."`. -/
  | succeeded (statusCode : Int)
deriving DecidableEq, Repr

/-- The retry hint appended to every failure message (kubernetes.py lines
349-353). -/
def retrySuffix : String := ". This could be a transient error. Use @retry to retry."

/-- `next(msg for msg in [self._job.reason, "Task crashed"] if msg is not
None)` plus the fixed suffix (kubernetes.py lines 341-353). -/
def failureMessage (reason : Option String) : String :=
  reason.getD "Task crashed" ++ retrySuffix

/-- The terminal classification (kubernetes.py lines 340-362), reading the
handle fields `has_failed`, then `is_running` (observed after the loop at time
`tEnd`), then `status_code`. -/
def classify (hasFailed : Bool) (reason : Option String)
    (stillRunning : Bool) (statusCode : Int) : MonitorResult :=
  if hasFailed then MonitorResult.failed (failureMessage reason)
  else if stillRunning then MonitorResult.killed
  else MonitorResult.succeeded statusCode

/-! ### The full `wait` (kubernetes.py lines 247-362) -/

/-- The output of `wait`, staged as the source stages it: the launch phase,
the running loop, the final unconditional pulls, and the classification
(computed last). -/
structure WaitOut where
  launch : Option LaunchState
  loopRes : LoopRes
  finalEvs : List Ev
  result : Option MonitorResult

/-- `Kubernetes.wait` (kubernetes.py lines 247-362): wait for launch, run the
running-wait loop, perform one final unconditional pull on each stream, then
classify.  `fuelL`/`fuelR` bound the two loops; `t0` is the submission time;
`upd` and `pulls` are as in `RunEnv`. -/
def wait (job : JobObs) (upd : Nat → Nat) (pulls : Nat → MStream → Pull)
    (fuelL fuelR t0 : Nat) : WaitOut :=
  match waitForLaunch job fuelL t0 with
  | none =>
      { launch := none, loopRes := LoopRes.fuelOut (runInit t0),
        finalEvs := [], result := none }
  | some ls =>
      match runLoop
          { upd := upd, jq := fun t => Except.ok (job.isRunningAt t),
            pulls := pulls, jobId := job.id } ls.t fuelR (runInit ls.t) with
      | LoopRes.finished s =>
          { launch := some ls, loopRes := LoopRes.finished s,
            finalEvs :=
              printAvailable job.id false MStream.stdout (pulls s.t MStream.stdout)
                ++ printAvailable job.id false MStream.stderr (pulls s.t MStream.stderr),
            result := some (classify job.hasFailed job.reason
                              (job.isRunningAt s.t) job.statusCode) }
      | r =>
          { launch := some ls, loopRes := r, finalEvs := [], result := none }

/-! ## Control-flow analysis of the running loop -/

/-- The control components of a running-loop state (everything except the
emitted events). -/
def ctrl (s : RunState) : Nat × Bool × Nat × Nat :=
  (s.t, s.isRunning, s.nextLogUpdate, s.logUpdateDelay)

/-- Two loop results with the same control behaviour: same constructor, same
propagated error, same control state (emitted events may differ). -/
def sameCtrl : LoopRes → LoopRes → Prop
  | LoopRes.fuelOut s, LoopRes.fuelOut s' => ctrl s = ctrl s'
  | LoopRes.statusErr e s, LoopRes.statusErr e' s' => e = e' ∧ ctrl s = ctrl s'
  | LoopRes.finished s, LoopRes.finished s' => ctrl s = ctrl s'
  | _, _ => False

/-- A concrete job handle used by witnesses: never running, already done. -/
def jb0 : JobObs :=
  { status := fun _ => "pending", isRunningAt := fun _ => false,
    isDoneAt := fun _ => true, hasFailed := false, reason := none,
    statusCode := 0, id := "job-0" }

/-- A concrete job handle for the C8 witness: status echoes the poll time,
and the job is already done. -/
def jbW : JobObs :=
  { status := fun t => toString t, isRunningAt := fun _ => false,
    isDoneAt := fun _ => true, hasFailed := false, reason := none,
    statusCode := 0, id := "job-w" }

/-- A launch state whose observed status differs from the last echoed one. -/
def sChg : LaunchState := { t := 5, status := "boot", lastT := 0, evs := [] }

/-- A launch state past the heartbeat. -/
def sGap : LaunchState :=
  { t := 40000, status := "40000", lastT := 0, evs := [] }

/-- The apostrophe character, by code point. -/
def apos : Char := Char.ofNat 39

/-- The Scenario E input: the sticky system tag
`features:name=O` + apostrophe + `Brien`. -/
def oBrienTag : String := "features:name=O" ++ String.singleton apos ++ "Brien"

/-- Constant one-second backoff, used by witnesses. -/
def upd0 : Nat → Nat := fun _ => 1000

/-- Empty, error-free pulls, used by witnesses. -/
def pulls0 : Nat → MStream → Pull := fun _ _ => { lines := [], err := none }

/-- A running-loop state at the first fire, used by witnesses. -/
def s1000 : RunState :=
  { t := 1000, isRunning := true, nextLogUpdate := 0, logUpdateDelay := 1000,
    evs := [] }

/-- Pulls that always raise, used by witnesses. -/
def pullsErr : Nat → MStream → Pull :=
  fun _ _ => { lines := [], err := some "boom" }

/-- A status query that always raises, used by witnesses. -/
def jqErr : Nat → Except String Bool := fun _ => Except.error "api down"

/-- A status query reporting running before 2000 ms, used by witnesses. -/
def jq2000 : Nat → Except String Bool :=
  fun t => Except.ok (decide (t < 2000))

/-- The C1 counterexample environment.  `update_delay` is not under `src/`;
the spec describes it only as an adaptive monotonically non-decreasing
backoff, so a constant 30-second backoff (the magnitude the production
sigmoid reaches after long runs) is a legitimate instance; the handle stops
reporting running at t = 2000 ms; pulls are empty and error-free. -/
def cexEnv : RunEnv :=
  { upd := fun _ => 30000, jq := jq2000, pulls := pulls0, jobId := "job-1" }

/-! ## Helper lemmas -/

theorem seqIn_build (p b : String) (ps : List String) (h : seqIn ps b) :
    seqIn (p :: ps) (p ++ b) :=
  ⟨"", b, rfl, h⟩

theorem seqIn_extend (a s : String) (ps : List String) (h : seqIn ps s) :
    seqIn ps (a ++ s) := by
  cases ps with
  | nil => trivial
  | cons p tail =>
      obtain ⟨a', b, hs, ht⟩ := h
      exact ⟨a ++ a', b, by rw [hs, String.append_assoc], ht⟩

theorem findIdx?_colon_none (l : List Char) (hl : ∀ c ∈ l, c ≠ ':') :
    ∀ i, l.findIdx? (fun c => c = ':') i = none := by
  induction l with
  | nil => intro i; rfl
  | cons a t ih =>
      intro i
      have ha : a ≠ ':' := hl a (List.mem_cons_self a t)
      simp only [List.findIdx?, ha, decide_False, Bool.false_eq_true,
        if_false, decide_eq_true_eq, if_neg ha]
      exact ih (fun c hc => hl c (List.mem_cons_of_mem a hc)) (i + 1)

theorem sysTagLabels_none (tag : String) (h : sysTagLabel tag = none) :
    ∀ tags, tag ∈ tags → sysTagLabels tags = none := by
  intro tags
  induction tags with
  | nil => intro hm; cases hm
  | cons a t ih =>
      intro hm
      rcases List.mem_cons.mp hm with h1 | h2
      · subst h1; simp [sysTagLabels, h]
      · cases hsa : sysTagLabel a <;> simp [sysTagLabels, hsa, ih h2]

/-! ## Claims -/

/-- Claim C9: a sticky system tag that contains no `:` makes `create_job`
raise an uncaught error (from `str.index`) before attaching a label or
submitting the job: processing the tag yields `none`, and `create_job` on any
tag list containing it yields `none` instead of a submitted descriptor. -/
theorem createJob_no_colon_raises (tag : String)
    (h : ∀ c ∈ tag.toList, c ≠ ':') :
    sysTagLabel tag = none ∧
    ∀ (k : Kubernetes) (user : String) (tags : List String),
      tag ∈ tags → createJob k user tags = none := by
  have hs : sysTagLabel tag = none := by
    unfold sysTagLabel
    rw [findIdx?_colon_none tag.toList h 0]
  refine ⟨hs, ?_⟩
  intro k user tags hm
  unfold createJob
  rw [sysTagLabels_none tag hs tags hm]

/-- Witness for C9 at the concrete tag `"notacolon"`. -/
theorem createJob_no_colon_raises_witness :
    sysTagLabel "notacolon" = none ∧
    createJob (Kubernetes.make "flow" "run" "begin" "1" 0) "user"
      ["notacolon"] = none := by
  have h := createJob_no_colon_raises "notacolon" (by decide)
  exact ⟨h.1, h.2 _ _ _ (by decide)⟩

/-- Claim C2 FAILS on the code (code bug).  The regex `[^A-Za-z0-9.-_]` of
kubernetes.py line 241 parses `.-_` as the code-point range 0x2E-0x5F, so
`=` (0x3D) is NOT replaced: the label value produced for the Scenario E tag
is `"name=O.Brien"`, which contains `=`, a character outside the charset
`[A-Za-z0-9._-]` claimed by the spec (conversely `-` (0x2D) IS replaced by
`.` although the claimed charset keeps it).  The split at the first `:` and
the replacement of the apostrophe by `.` do hold. -/
theorem sysTagLabel_oBrien_eval :
    sysTagLabel oBrienTag = some ("metaflow/features", "name=O.Brien")
    ∧ ("name=O.Brien".toList.any (fun c => !specCharset c)) = true
    ∧ keptByRegex '=' = true ∧ specCharset '=' = false
    ∧ keptByRegex '-' = false ∧ specCharset '-' = true
    ∧ sanitizeValue "a-b" = "a.b" := by decide

/-- Claim C4: in the monitor echo path (`_print_available` with
`should_persist=False`, the only form `wait` uses), a pulled line is
decorated via `refine` with the job-id prefix unless it is already marked
persisted, in which case it passes through unchanged; re-decorating is a
no-op on a persisted line, and the marker is preserved, keeping persisted
and provisional lines distinguishable. -/
theorem refine_persisted_noop (pfx : String) (l : LogLine) :
    ((refine pfx l).persisted = l.persisted)
    ∧ (l.persisted = true →
        echoTransform pfx false l = l
        ∧ refine pfx (refine pfx l) = refine pfx l)
    ∧ (l.persisted = false →
        echoTransform pfx false l = refine pfx l
        ∧ (refine pfx l).payload = pfx ++ l.payload)
    ∧ (set_should_persist l).persisted = true := by
  cases l with
  | mk p pay => cases p <;> simp [refine, echoTransform, set_should_persist]

/-- Witness for C4 at concrete lines. -/
theorem refine_persisted_noop_witness :
    (echoTransform "[job-0] " false { persisted := true, payload := "done" }
       = { persisted := true, payload := "done" })
    ∧ (echoTransform "[job-0] " false { persisted := false, payload := "live" }
       = refine "[job-0] " { persisted := false, payload := "live" }) :=
  ⟨((refine_persisted_noop "[job-0] " _).2.1 rfl).1,
   ((refine_persisted_noop "[job-0] " _).2.2.1 rfl).1⟩

/-- Claim C10: `__init__` stores `attempt` as the decimal string
`str(attempt)`; `launch_job` (the only state-modifying operation; `_command`,
`create_job` and `wait` perform no attribute writes in the source and are
embedded as pure functions) preserves the five identity fields; and the job
name, the job labels and the log locations all factor through that immutable
identity. -/
theorem identity_immutable :
    (∀ (f r s t : String) (a : Nat),
        (Kubernetes.make f r s t a).attempt = toString a
        ∧ (Kubernetes.make f r s t a).identity = (f, r, s, t, toString a))
    ∧ (∀ (k : Kubernetes) (h : JobObs),
        (k.launchJob h).identity = k.identity)
    ∧ (∀ k₁ k₂ : Kubernetes, k₁.identity = k₂.identity →
        jobName k₁ = jobName k₂
        ∧ (∀ user, baseLabels k₁ user = baseLabels k₂ user)
        ∧ (∀ st, logLocation k₁ st = logLocation k₂ st)
        ∧ (∀ user tags, createJob k₁ user tags = createJob k₂ user tags)) := by
  refine ⟨fun f r s t a => ⟨rfl, rfl⟩, fun k h => rfl, ?_⟩
  intro k₁ k₂ h
  simp only [Kubernetes.identity, Prod.mk.injEq] at h
  obtain ⟨h1, h2, h3, h4, h5⟩ := h
  refine ⟨?_, ?_, ?_, ?_⟩
  · simp [jobName, h1, h2, h3, h4, h5]
  · intro user; simp [baseLabels, h1, h2, h3, h4, h5]
  · intro st; simp [logLocation, Kubernetes.identity, h1, h2, h3, h4, h5]
  · intro user tags
    cases hst : sysTagLabels tags <;>
      simp [createJob, hst, jobName, baseLabels, h1, h2, h3, h4, h5]

/-- Witness for C10 at a concrete instance. -/
theorem identity_immutable_witness :
    (Kubernetes.make "f" "r" "s" "t" 3).attempt = "3"
    ∧ ((Kubernetes.make "f" "r" "s" "t" 3).launchJob jb0).identity
        = (Kubernetes.make "f" "r" "s" "t" 3).identity
    ∧ jobName (Kubernetes.make "f" "r" "s" "t" 3)
        = jobName (Kubernetes.make "f" "r" "s" "t" 3) := by
  refine ⟨?_, identity_immutable.2.1 _ jb0, (identity_immutable.2.2 _ _ rfl).1⟩
  exact (identity_immutable.1 "f" "r" "s" "t" 3).1.trans (by decide)

/-- Claim C3: terminal classification.  If the handle reports failure, the
outcome is `failed` with the reported reason (falling back to the generic
crash message when the reason is `None`) always suffixed with the retry
hint; else, if the handle still reports running, the outcome is `killed`
(never a success); else the outcome is `succeeded` with the status code of
the handle.  `wait` applies exactly this classification to the handle state
observed after the loop. -/
theorem classify_terminal (hf sr : Bool) (r : Option String) (sc : Int) :
    (hf = true →
        classify hf r sr sc = MonitorResult.failed (failureMessage r)
        ∧ (∀ m, r = some m → failureMessage r = m ++ retrySuffix)
        ∧ (r = none → failureMessage r = "Task crashed" ++ retrySuffix))
    ∧ (hf = false → sr = true →
        classify hf r sr sc = MonitorResult.killed
        ∧ ∀ c : Int, MonitorResult.killed ≠ MonitorResult.succeeded c)
    ∧ (hf = false → sr = false →
        classify hf r sr sc = MonitorResult.succeeded sc)
    ∧ (∀ (job : JobObs) (upd : Nat → Nat) (pulls : Nat → MStream → Pull)
          (fL fR t0 : Nat) (s : RunState),
        (wait job upd pulls fL fR t0).loopRes = LoopRes.finished s →
        (wait job upd pulls fL fR t0).result
          = some (classify job.hasFailed job.reason (job.isRunningAt s.t)
                    job.statusCode)) := by
  refine ⟨?_, ?_, ?_, ?_⟩
  · intro h; subst h
    refine ⟨by simp [classify], ?_, ?_⟩
    · intro m hm; subst hm; simp [failureMessage]
    · intro hm; subst hm; simp [failureMessage]
  · intro h1 h2; subst h1; subst h2
    exact ⟨by simp [classify], by intro c; simp⟩
  · intro h1 h2; subst h1; subst h2; simp [classify]
  · intro job upd pulls fL fR t0 s h
    unfold wait at h ⊢
    cases hL : waitForLaunch job fL t0 with
    | none => rw [hL] at h; simp at h
    | some ls =>
        rw [hL] at h
        dsimp only at h ⊢
        cases hR : runLoop
            { upd := upd, jq := fun t => Except.ok (job.isRunningAt t),
              pulls := pulls, jobId := job.id } ls.t fR (runInit ls.t) with
        | fuelOut s0 => rw [hR] at h; simp at h
        | statusErr e s0 => rw [hR] at h; simp at h
        | finished s0 =>
            rw [hR] at h
            dsimp only at h
            injection h with h
            subst h
            rfl

/-- Witness for C3 at concrete handle states and one concrete full run. -/
theorem classify_terminal_witness :
    classify true (some "OOMKilled") false 0
      = MonitorResult.failed (failureMessage (some "OOMKilled"))
    ∧ classify false none true 0 = MonitorResult.killed
    ∧ classify false none false 7 = MonitorResult.succeeded 7
    ∧ (wait jb0 upd0 pulls0 5 5 0).result
        = some (classify jb0.hasFailed jb0.reason (jb0.isRunningAt 2000)
                  jb0.statusCode) := by
  refine ⟨((classify_terminal true false (some "OOMKilled") 0).1 rfl).1,
          ((classify_terminal false true none 0).2.1 rfl rfl).1,
          (classify_terminal false false none 7).2.2.1 rfl rfl,
          (classify_terminal false false none 0).2.2.2 jb0 upd0 pulls0 5 5 0
            { t := 2000, isRunning := false, nextLogUpdate := 2000,
              logUpdateDelay := 1000,
              evs := [Ev.pull MStream.stdout, Ev.pull MStream.stderr] }
            (by decide)⟩

/-- Right-associated decomposition of the assembled command string, with the
composite literals split at the claim-relevant boundaries. -/
theorem commandStr_assoc (env : CommandEnv) (sc : List String) :
    commandStr env sc
      = "true && " ++ ("mkdir -p /logs" ++ (" && " ++ (env.mflog_expr
          ++ (" && " ++ (ampJoin env.package_commands ++ (" && "
          ++ (stepExpr env sc ++ ("; " ++ ("c=$?" ++ ("; "
          ++ (env.bash_save_logs ++ ("; " ++ "exit $c")))))))))))) := by
  have h1 : ("true && mkdir -p /logs && " : String)
      = ("true && " ++ "mkdir -p /logs") ++ " && " := rfl
  have h2 : ("c=$?; " : String) = "c=$?" ++ "; " := rfl
  have h3 : ("; exit $c" : String) = "; " ++ "exit $c" := rfl
  unfold commandStr
  rw [h1, h2, h3]
  simp only [String.append_assoc]

/-- Claim C6: `_command` returns a `bash -c` invocation of a single command
string that starts with `true &&` (so an entry point that evaluates its
arguments as one command still works) and contains, in order: the log
directory creation, the mflog environment exports, the captured bootstrap +
task expression, the exit-code capture `c=$?`, the final log flush, and
`exit $c` (run after the task whether it succeeded or failed, since it
follows the `;` separator rather than `&&`). -/
theorem command_structure (env : CommandEnv) (sc : List String) :
    command env sc = ["bash", "-c", commandStr env sc]
    ∧ (∃ rest, commandStr env sc = "true && " ++ rest)
    ∧ seqIn ["mkdir -p /logs", env.mflog_expr, stepExpr env sc,
             "c=$?", env.bash_save_logs, "exit $c"] (commandStr env sc) := by
  refine ⟨rfl, ⟨_, commandStr_assoc env sc⟩, ?_⟩
  rw [commandStr_assoc env sc]
  apply seqIn_extend
  apply seqIn_build
  apply seqIn_extend
  apply seqIn_build
  apply seqIn_extend
  apply seqIn_extend
  apply seqIn_extend
  apply seqIn_build
  apply seqIn_extend
  apply seqIn_build
  apply seqIn_extend
  apply seqIn_build
  apply seqIn_extend
  exact ⟨"", "", by rfl, trivial⟩

/-- The shape of a `wait` whose running loop exits normally: the final event
segment is one pull of each stream at the exit time, and the result is the
classification of the handle state observed then. -/
theorem wait_finished_shape (job : JobObs) (upd : Nat → Nat)
    (pulls : Nat → MStream → Pull) (fL fR t0 : Nat) (s : RunState)
    (h : (wait job upd pulls fL fR t0).loopRes = LoopRes.finished s) :
    (wait job upd pulls fL fR t0).finalEvs
      = printAvailable job.id false MStream.stdout (pulls s.t MStream.stdout)
        ++ printAvailable job.id false MStream.stderr (pulls s.t MStream.stderr)
    ∧ (wait job upd pulls fL fR t0).result
        = some (classify job.hasFailed job.reason (job.isRunningAt s.t)
                  job.statusCode) := by
  unfold wait at h ⊢
  cases hL : waitForLaunch job fL t0 with
  | none => rw [hL] at h; simp at h
  | some ls =>
      rw [hL] at h
      dsimp only at h ⊢
      cases hR : runLoop
          { upd := upd, jq := fun t => Except.ok (job.isRunningAt t),
            pulls := pulls, jobId := job.id } ls.t fR (runInit ls.t) with
      | fuelOut s0 => rw [hR] at h; simp at h
      | statusErr e s0 => rw [hR] at h; simp at h
      | finished s0 =>
          rw [hR] at h
          dsimp only at h
          injection h with h
          subst h
          exact ⟨rfl, rfl⟩

theorem warnings_map_line (st : MStream) (g : LogLine → String)
    (l : List LogLine) :
    warnings (l.map (fun x => Ev.line st (g x))) = [] := by
  induction l with
  | nil => rfl
  | cons a t ih => simp [warnings, List.filter_cons]

theorem pull_filter_map_line (st st' : MStream) (g : LogLine → String)
    (l : List LogLine) :
    ((l.map (fun x => Ev.line st (g x))).filter
      (fun e => match e with | Ev.pull s => s = st' | _ => false)) = [] := by
  induction l with
  | nil => rfl
  | cons a t ih => simp [List.filter_cons]

theorem pullCount_append (st : MStream) (a b : List Ev) :
    pullCount st (a ++ b) = pullCount st a + pullCount st b := by
  simp [pullCount, List.filter_append]

theorem pullCount_printAvailable (jobId : String) (sp : Bool)
    (st st' : MStream) (p : Pull) :
    pullCount st' (printAvailable jobId sp st p)
      = if st = st' then 1 else 0 := by
  unfold printAvailable pullCount
  rw [List.filter_cons]
  cases p.err with
  | none =>
      by_cases hc : st = st' <;>
        simp [hc, List.filter_append, pull_filter_map_line]
  | some m =>
      by_cases hc : st = st' <;>
        simp [hc, List.filter_append, List.filter_cons, pull_filter_map_line]

/-- Claim C7: whenever the running-wait loop of `wait` exits normally,
exactly one additional unconditional log pull is performed on each of the
stdout and stderr streams (at the loop exit time), before the terminal
classification is computed. -/
theorem final_pulls (job : JobObs) (upd : Nat → Nat)
    (pulls : Nat → MStream → Pull) (fL fR t0 : Nat) (s : RunState)
    (h : (wait job upd pulls fL fR t0).loopRes = LoopRes.finished s) :
    (wait job upd pulls fL fR t0).finalEvs
      = printAvailable job.id false MStream.stdout (pulls s.t MStream.stdout)
        ++ printAvailable job.id false MStream.stderr (pulls s.t MStream.stderr)
    ∧ pullCount MStream.stdout (wait job upd pulls fL fR t0).finalEvs = 1
    ∧ pullCount MStream.stderr (wait job upd pulls fL fR t0).finalEvs = 1 := by
  obtain ⟨hfe, -⟩ := wait_finished_shape job upd pulls fL fR t0 s h
  refine ⟨hfe, ?_, ?_⟩ <;>
    rw [hfe, pullCount_append, pullCount_printAvailable,
      pullCount_printAvailable] <;> rfl

/-- Witness for C7 on a concrete run. -/
theorem final_pulls_witness :
    pullCount MStream.stdout (wait jb0 upd0 pulls0 5 5 0).finalEvs = 1
    ∧ pullCount MStream.stderr (wait jb0 upd0 pulls0 5 5 0).finalEvs = 1 := by
  have h := final_pulls jb0 upd0 pulls0 5 5 0
    { t := 2000, isRunning := false, nextLogUpdate := 2000,
      logUpdateDelay := 1000,
      evs := [Ev.pull MStream.stdout, Ev.pull MStream.stderr] } (by decide)
  exact ⟨h.2.1, h.2.2⟩

/-- The launch-loop iteration never changes the current time. -/
theorem launchIter_t (job : JobObs) (s : LaunchState) :
    (launchIter job s).t = s.t := by
  unfold launchIter
  split <;> rfl

/-- Claim C8: during the launch phase a "task is starting" notice is emitted
at every poll that observes a status change, and at every poll at which more
than the 30-second heartbeat (30000 ms) has elapsed since the last notice;
after any poll, at most the heartbeat has elapsed since the last notice (so
with the 200 ms poll period, notices are never farther apart than the
heartbeat plus one poll); and the loop exits exactly when `is_running or
is_done` holds — immediately, without advancing time, when it already holds
at the current poll. -/
theorem launch_notices (job : JobObs) :
    (∀ s : LaunchState, job.status s.t ≠ s.status →
        (launchIter job s).evs = s.evs ++ [(s.t, job.status s.t)])
    ∧ (∀ s : LaunchState, s.t - s.lastT > 30000 →
        (launchIter job s).evs = s.evs ++ [(s.t, job.status s.t)])
    ∧ (∀ s : LaunchState,
        (launchIter job s).t - (launchIter job s).lastT ≤ 30000)
    ∧ (∀ (s : LaunchState) (fuel : Nat), launchCond job s.t = true →
        launchLoop job (fuel + 1) s = some (launchIter job s)
        ∧ (launchIter job s).t = s.t)
    ∧ (∀ (fuel : Nat) (s s' : LaunchState),
        launchLoop job fuel s = some s' → launchCond job s'.t = true) := by
  refine ⟨?_, ?_, ?_, ?_, ?_⟩
  · intro s h
    have hc : s.status ≠ job.status s.t ∨ s.t - s.lastT > 30000 :=
      Or.inl (Ne.symm h)
    unfold launchIter
    rw [if_pos hc]
  · intro s h
    have hc : s.status ≠ job.status s.t ∨ s.t - s.lastT > 30000 := Or.inr h
    unfold launchIter
    rw [if_pos hc]
  · intro s
    unfold launchIter
    by_cases hc : s.status ≠ job.status s.t ∨ s.t - s.lastT > 30000
    · rw [if_pos hc]; simp
    · rw [if_neg hc]
      rcases not_or.mp hc with ⟨-, h2⟩
      omega
  · intro s fuel h
    have ht := launchIter_t job s
    constructor
    · unfold launchLoop
      rw [ht, if_pos h]
    · exact ht
  · intro fuel
    induction fuel with
    | zero => intro s s' h; cases h
    | succ n ih =>
        intro s s' h
        unfold launchLoop at h
        by_cases hc : launchCond job (launchIter job s).t = true
        · rw [if_pos hc] at h
          injection h with h
          subst h
          exact hc
        · rw [if_neg (by simpa using hc)] at h
          exact ih _ _ h

/-- Witness for C8 at concrete launch states. -/
theorem launch_notices_witness :
    (launchIter jbW sChg).evs = sChg.evs ++ [(sChg.t, jbW.status sChg.t)]
    ∧ (launchIter jbW sGap).evs = sGap.evs ++ [(sGap.t, jbW.status sGap.t)]
    ∧ (launchIter jbW sGap).t - (launchIter jbW sGap).lastT ≤ 30000
    ∧ launchLoop jbW 1 sChg = some (launchIter jbW sChg)
    ∧ launchCond jbW (launchIter jbW sChg).t = true :=
  ⟨(launch_notices jbW).1 sChg (by decide),
   (launch_notices jbW).2.1 sGap (by decide),
   (launch_notices jbW).2.2.1 sGap,
   ((launch_notices jbW).2.2.2.1 sChg 0 (by decide)).1,
   (launch_notices jbW).2.2.2.2 1 sChg (launchIter jbW sChg)
     ((launch_notices jbW).2.2.2.1 sChg 0 (by decide)).1⟩

theorem runIter_ctrl_congr (upd : Nat → Nat) (jq : Nat → Except String Bool)
    (p₁ p₂ : Nat → MStream → Pull) (id₁ id₂ : String) (startT : Nat)
    (s₁ s₂ : RunState) (h : ctrl s₁ = ctrl s₂) :
    (∃ e, runIter ⟨upd, jq, p₁, id₁⟩ startT s₁ = Except.error e
        ∧ runIter ⟨upd, jq, p₂, id₂⟩ startT s₂ = Except.error e)
    ∨ (∃ s₁' s₂', runIter ⟨upd, jq, p₁, id₁⟩ startT s₁ = Except.ok s₁'
        ∧ runIter ⟨upd, jq, p₂, id₂⟩ startT s₂ = Except.ok s₂'
        ∧ ctrl s₁' = ctrl s₂') := by
  obtain ⟨t₁, r₁, n₁, d₁, e₁⟩ := s₁
  obtain ⟨t₂, r₂, n₂, d₂, e₂⟩ := s₂
  simp only [ctrl, Prod.mk.injEq] at h
  obtain ⟨ht, hr, hn, hd⟩ := h
  subst ht; subst hr; subst hn; subst hd
  by_cases hc : t₁ > n₁
  · simp only [runIter, if_pos hc]
    cases hq : jq t₁ with
    | error e => exact Or.inl ⟨e, rfl, rfl⟩
    | ok b => exact Or.inr ⟨_, _, rfl, rfl, rfl⟩
  · simp only [runIter, if_neg hc]
    exact Or.inr ⟨_, _, rfl, rfl, rfl⟩

theorem runLoop_ctrl_congr (upd : Nat → Nat) (jq : Nat → Except String Bool)
    (p₁ p₂ : Nat → MStream → Pull) (id₁ id₂ : String) (startT : Nat) :
    ∀ (fuel : Nat) (s₁ s₂ : RunState), ctrl s₁ = ctrl s₂ →
      sameCtrl (runLoop ⟨upd, jq, p₁, id₁⟩ startT fuel s₁)
               (runLoop ⟨upd, jq, p₂, id₂⟩ startT fuel s₂) := by
  intro fuel
  induction fuel with
  | zero => intro s₁ s₂ h; exact h
  | succ n ih =>
      intro s₁ s₂ h
      have hr : s₁.isRunning = s₂.isRunning :=
        congrArg (fun x => x.2.1) h
      cases hrun : s₁.isRunning with
      | false =>
          simp only [runLoop, hrun, hrun ▸ hr.symm, Bool.false_eq_true,
            if_false]
          exact h
      | true =>
          simp only [runLoop, hrun, hrun ▸ hr.symm, if_true]
          rcases runIter_ctrl_congr upd jq p₁ p₂ id₁ id₂ startT s₁ s₂ h with
            ⟨e, h1, h2⟩ | ⟨s₁', s₂', h1, h2, hc⟩
          · rw [h1, h2]
            exact ⟨rfl, h⟩
          · rw [h1, h2]
            exact ih s₁' s₂' hc

/-- Claim C5: a failing log pull is caught inside `_print_available` and
reported exactly once as a warning tagged with the job id (and no warning is
emitted when the pull succeeds); the control state of the running loop (its
timing, its exit and its outcome) is entirely independent of the pull
results, so monitoring continues after a pull error; every fire performs a
fresh pull of both streams regardless of earlier pull outcomes; and an
exception from the `is_running` status query is not caught: it aborts the
loop and propagates. -/
theorem log_pull_error_handling :
    (∀ (jobId : String) (sp : Bool) (st : MStream) (p : Pull) (m : String),
        p.err = some m →
        warnings (printAvailable jobId sp st p) = [Ev.logWarning jobId m])
    ∧ (∀ (jobId : String) (sp : Bool) (st : MStream) (p : Pull),
        p.err = none → warnings (printAvailable jobId sp st p) = [])
    ∧ (∀ (upd : Nat → Nat) (jq : Nat → Except String Bool)
          (p₁ p₂ : Nat → MStream → Pull) (id₁ id₂ : String)
          (startT fuel : Nat) (s : RunState),
        sameCtrl (runLoop ⟨upd, jq, p₁, id₁⟩ startT fuel s)
                 (runLoop ⟨upd, jq, p₂, id₂⟩ startT fuel s))
    ∧ (∀ (E : RunEnv) (startT : Nat) (s : RunState) (b : Bool),
        s.t > s.nextLogUpdate → E.jq s.t = Except.ok b →
        runIter E startT s = Except.ok
          { t := s.t + min (E.upd (s.t - startT)) 5000, isRunning := b,
            nextLogUpdate := s.t + E.upd (s.t - startT),
            logUpdateDelay := E.upd (s.t - startT),
            evs := s.evs
              ++ (printAvailable E.jobId false MStream.stdout
                    (E.pulls s.t MStream.stdout)
                  ++ printAvailable E.jobId false MStream.stderr
                    (E.pulls s.t MStream.stderr)) })
    ∧ (∀ (E : RunEnv) (startT : Nat) (s : RunState) (e : String) (fuel : Nat),
        s.isRunning = true → s.t > s.nextLogUpdate →
        E.jq s.t = Except.error e →
        runLoop E startT (fuel + 1) s = LoopRes.statusErr e s) := by
  refine ⟨?_, ?_, ?_, ?_, ?_⟩
  · intro jobId sp st p m hp
    simp [printAvailable, warnings, List.filter_cons, List.filter_append, hp]
  · intro jobId sp st p hp
    simp [printAvailable, warnings, List.filter_cons, List.filter_append, hp]
  · intro upd jq p₁ p₂ id₁ id₂ startT fuel s
    exact runLoop_ctrl_congr upd jq p₁ p₂ id₁ id₂ startT fuel s s rfl
  · intro E startT s b h1 h2
    unfold runIter
    rw [if_pos h1, h2]
  · intro E startT s e fuel h1 h2 h3
    have hit : runIter E startT s = Except.error e := by
      unfold runIter
      rw [if_pos h2, h3]
    simp only [runLoop, h1, if_true, hit]

/-- Witness for C5 at concrete pulls, states and status queries. -/
theorem log_pull_error_handling_witness :
    warnings (printAvailable "job-0" false MStream.stdout
        { lines := [], err := some "boom" }) = [Ev.logWarning "job-0" "boom"]
    ∧ warnings (printAvailable "job-0" false MStream.stdout
        { lines := [], err := none }) = []
    ∧ sameCtrl (runLoop ⟨upd0, jq2000, pulls0, "job-0"⟩ 0 9 (runInit 0))
               (runLoop ⟨upd0, jq2000, pullsErr, "job-0"⟩ 0 9 (runInit 0))
    ∧ runIter ⟨upd0, fun _ => Except.ok false, pulls0, "job-0"⟩ 0 s1000
        = Except.ok
            { t := 2000, isRunning := false, nextLogUpdate := 2000,
              logUpdateDelay := 1000,
              evs := [Ev.pull MStream.stdout, Ev.pull MStream.stderr] }
    ∧ runLoop ⟨upd0, jqErr, pulls0, "job-0"⟩ 0 1 s1000
        = LoopRes.statusErr "api down" s1000 :=
  ⟨log_pull_error_handling.1 "job-0" false MStream.stdout _ "boom" rfl,
   log_pull_error_handling.2.1 "job-0" false MStream.stdout _ rfl,
   log_pull_error_handling.2.2.1 upd0 jq2000 pulls0 pullsErr "job-0" "job-0"
     0 9 (runInit 0),
   log_pull_error_handling.2.2.2.1 ⟨upd0, fun _ => Except.ok false, pulls0,
     "job-0"⟩ 0 s1000 false (by decide) rfl,
   log_pull_error_handling.2.2.2.2 ⟨upd0, jqErr, pulls0, "job-0"⟩ 0 s1000
     "api down" 0 rfl (by decide) rfl⟩

/-- Claim C1 FAILS on the code (code bug).  In the running-wait loop
(kubernetes.py lines 309-322) the `is_running` flag is refreshed only inside
the `time.time() > next_log_update` branch, so although every sleep is
capped at `min(log_update_delay, 5.0)` seconds, completion is not detected
until the next scheduled log update.  With the backoff grown to 30 s and the
job stopping at t = 2000 ms (right after the fire at t = 1000 ms scheduled
the next update for t = 31000 ms), the loop only exits at t = 41000 ms —
39 s after the handle stopped reporting running, far beyond the claimed
5-time-unit (5000 ms) completion-detection bound.  This contradicts the
comment at lines 318-320 of the source, which states the loop should exit
"without a long delay, regardless of the log tailing schedule". -/
theorem completion_detection_unbounded :
    cexEnv.upd = (fun _ => 30000)
    ∧ cexEnv.jq = (fun t => Except.ok (decide (t < 2000)))
    ∧ exitTime (runLoop cexEnv 0 20 (runInit 0)) = some 41000
    ∧ 2000 + 5000 < 41000 :=
  ⟨rfl, rfl, by decide, by decide⟩

end Metaflow
